import Mathlib

/-!
Shallow embedding of the graph-visualization components of qubicdb-ui:
the 2D SVG renderer (src/components/BrainViz.tsx), the 3D renderer
(src/components/NeuralGraph3D.tsx) and the cytoscape renderer (NeoGraph).
Numbers are modelled as rationals, JavaScript optional values as Option.
-/

/-- An RGB color, componentwise rational. -/
abbrev Color := ℚ × ℚ × ℚ

/-- Componentwise linear interpolation between two colors:
lerpColor lo hi t = lo + t * (hi - lo). -/
def lerpColor (lo hi : Color) (t : ℚ) : Color :=
  (lo.1 + t * (hi.1 - lo.1), lo.2.1 + t * (hi.2.1 - lo.2.1), lo.2.2 + t * (hi.2.2 - lo.2.2))

/-- A node record from the REST client (GraphNode in src/api/client.ts).
The components read content and position through optional chaining, so both
are modelled as Option even though the TypeScript interface declares them. -/
structure GraphNode where
  id : String
  content : Option String
  energy : ℚ
  depth : ℕ
  accessCount : ℕ
  position : Option (List ℚ)
deriving Repr, DecidableEq

/-- An edge record from the REST client (GraphEdge in src/api/client.ts). -/
structure GraphEdge where
  source : String
  target : String
  weight : ℚ
  coFireCount : ℕ
deriving Repr, DecidableEq

/-- JavaScript optional indexing p?.[i]: undefined when the array is absent
or the index is out of range. -/
def jsIndex (p : Option (List ℚ)) (i : ℕ) : Option ℚ :=
  p.bind (fun l => l.get? i)

/-- JavaScript string coercion of a possibly-undefined string, as performed
by the + operator: undefined + s renders as "undefined" ++ s. -/
def jsCoerce : Option String → String
  | some s => s
  | none => "undefined"

namespace BrainViz

/-- A simulation node as built in BrainViz.tsx: the raw record spread
together with an initial x/y seeded from the spatial hint. -/
structure SimNode where
  id : String
  x : ℚ
  y : ℚ
deriving Repr, DecidableEq

/-- A simulation link as built in BrainViz.tsx (interface SimLink). -/
structure SimLink where
  source : String
  target : String
  weight : ℚ
  coFireCount : ℕ
deriving Repr, DecidableEq

/-- BrainViz.tsx lines 132-136: simNodes = nodes.map with
x = width / 2 + (n.position?.[0] ?? 0) * 200 and
y = height / 2 + (n.position?.[1] ?? 0) * 200. -/
def simNodesOf (width height : ℚ) (nodes : List GraphNode) : List SimNode :=
  nodes.map (fun n =>
    { id := n.id
      x := width / 2 + ((jsIndex n.position 0).getD 0) * 200
      y := height / 2 + ((jsIndex n.position 1).getD 0) * 200 })

/-- BrainViz.tsx lines 138-143: simLinks = edges.map, copying source, target,
weight and coFireCount; no endpoint filtering is performed. -/
def simLinksOf (edges : List GraphEdge) : List SimLink :=
  edges.map (fun e =>
    { source := e.source, target := e.target, weight := e.weight, coFireCount := e.coFireCount })

/-- The number of line elements the links join creates: one per simLink. -/
def renderedEdgeCount (edges : List GraphEdge) : ℕ :=
  (simLinksOf edges).length

/-- The relations whose two endpoints both exist in the node id set. -/
def validEdgeCount (nodeIds : List String) (edges : List GraphEdge) : ℕ :=
  (edges.filter (fun e => nodeIds.contains e.source && nodeIds.contains e.target)).length

/-- Resolution of link endpoint ids against the node set, as d3.forceLink
performs it when the simulation is constructed: a source or target id with
no matching node makes initialization fail with "node not found". -/
def resolveLinks (nodeIds : List String) : List SimLink → Except String (List SimLink)
  | [] => .ok []
  | l :: ls =>
    if nodeIds.contains l.source then
      if nodeIds.contains l.target then
        (resolveLinks nodeIds ls).map (fun rs => l :: rs)
      else .error ("node not found: " ++ l.target)
    else .error ("node not found: " ++ l.source)

/-- The main effect of BrainViz.tsx (lines 57-342) runs again whenever the
nodes or edges props change; it clears the whole svg and rebuilds simNodes
from the props alone, so the simulation state it replaces is not consulted. -/
def rebuildOnSnapshot (_prevState : List SimNode) (width height : ℚ)
    (nodes : List GraphNode) : List SimNode :=
  simNodesOf width height nodes

/-- BrainViz.tsx line 165: stroke-width = 1 + weight * 4. -/
def strokeWidth (w : ℚ) : ℚ := 1 + w * 4

/-- BrainViz.tsx line 166: stroke-opacity = 0.3 + weight * 0.5. -/
def strokeOpacity (w : ℚ) : ℚ := 3 / 10 + w * (1 / 2)

/-- BrainViz.tsx line 172: numParticles = Math.min(Math.ceil(coFireCount / 2), 5);
for a natural coFireCount, Math.ceil(c / 2) = (c + 1) / 2 in integer division. -/
def numParticles (c : ℕ) : ℕ := min ((c + 1) / 2) 5

/-- BrainViz.tsx lines 46-49: energyColor = interpolateRgb(green, red)(1 - energy),
a componentwise linear interpolation from #22c55e = (34,197,94) at argument 0
to #ef4444 = (239,68,68) at argument 1, evaluated at 1 - energy. -/
def energyColor (e : ℚ) : Color :=
  lerpColor (34, 197, 94) (239, 68, 68) (1 - e)

/-- BrainViz.tsx line 263: label text = d.content?.slice(0, 20) + '...',
with JavaScript coercing an undefined slice result to "undefined". -/
def labelText (content : Option String) : String :=
  jsCoerce (content.map (fun s => s.take 20)) ++ "..."

/-- BrainViz.tsx lines 237-241: node click toggles the selection id:
setSelectedNode(prev => prev === d.id ? null : d.id). -/
def nodeClick (prev : Option String) (clicked : String) : Option String :=
  if prev = some clicked then none else some clicked

/-- BrainViz.tsx attaches no click handler to the svg background, so a click
on empty canvas leaves the selection unchanged. -/
def canvasClick (prev : Option String) : Option String := prev

/-- The per-node state the d3 force simulation owns: position, velocity and
the fixed-position fields fx/fy that the drag handlers write. -/
structure DragNode where
  x : ℚ
  y : ℚ
  vx : ℚ
  vy : ℚ
  fx : Option ℚ
  fy : Option ℚ
deriving Repr, DecidableEq

/-- BrainViz.tsx lines 271-275: drag start pins the node at its current
position (d.fx = d.x; d.fy = d.y) and reheats the simulation. -/
def dragStart (d : DragNode) : DragNode :=
  { d with fx := some d.x, fy := some d.y }

/-- BrainViz.tsx lines 276-279: while dragging, fx/fy follow the pointer. -/
def dragged (px py : ℚ) (d : DragNode) : DragNode :=
  { d with fx := some px, fy := some py }

/-- BrainViz.tsx lines 280-284: drag end unpins (d.fx = null; d.fy = null)
and lets cooling resume. -/
def dragEnd (d : DragNode) : DragNode :=
  { d with fx := none, fy := none }

/-- One integration tick of the d3 force simulation for one node, given the
accumulated force (ax, ay) of this tick: velocity Verlet with the default
velocityDecay of 0.4, except that a node with a fixed coordinate has that
coordinate held at its fx/fy value and the matching velocity set to zero,
which is how d3-force treats nodes pinned through fx/fy. -/
def tick (ax ay : ℚ) (d : DragNode) : DragNode :=
  let vx := (d.vx + ax) * (6 / 10)
  let vy := (d.vy + ay) * (6 / 10)
  { x := match d.fx with | some px => px | none => d.x + vx
    y := match d.fy with | some py => py | none => d.y + vy
    vx := match d.fx with | some _ => 0 | none => vx
    vy := match d.fy with | some _ => 0 | none => vy
    fx := d.fx
    fy := d.fy }

/-- One pending setTimeout scheduled by the main effect: its delay in
milliseconds and the index of the edge whose data its callback captured. -/
structure ParticleTimer where
  delayMs : ℕ
  edgeIndex : ℕ
deriving Repr, DecidableEq

/-- BrainViz.tsx lines 171-212: for edge i and each particle p below
numParticles, setTimeout(animateParticle, 1000 + p * 200) is scheduled;
the callback closes over that edge's link data. -/
def particleTimersOf (edges : List GraphEdge) : List ParticleTimer :=
  (edges.enum).flatMap (fun ie =>
    (List.range (numParticles ie.2.coFireCount)).map (fun p =>
      { delayMs := 1000 + p * 200, edgeIndex := ie.1 }))

/-- The asynchronous state the main effect leaves behind: whether the force
simulation is running, the pending particle setTimeout timers, and the
pending zoom-to-fit setTimeout (BrainViz.tsx line 323, delay 1500). -/
structure EngineState where
  simulationRunning : Bool
  pendingTimers : List ParticleTimer
  zoomTimerPending : Bool
deriving Repr, DecidableEq

/-- Running the main effect (BrainViz.tsx lines 57-338): it returns early
when the node list is empty, otherwise it starts the simulation and
schedules the particle timers and the zoom-to-fit timer. -/
def setupEffect (nodes : List GraphNode) (edges : List GraphEdge) : EngineState :=
  if nodes.isEmpty then
    { simulationRunning := false, pendingTimers := [], zoomTimerPending := false }
  else
    { simulationRunning := true
      pendingTimers := particleTimersOf edges
      zoomTimerPending := true }

/-- The effect cleanup (BrainViz.tsx lines 339-341): it calls
simulation.stop() and nothing else; no setTimeout is cleared. -/
def cleanupEffect (s : EngineState) : EngineState :=
  { s with simulationRunning := false }

end BrainViz

namespace NeuralGraph3D

/-- NeuralGraph3D.tsx lines 80-82: fx = n.position?.[0] ? n.position[0] * 100
: undefined. The JavaScript truthiness test makes both an absent coordinate
and a coordinate equal to 0 yield undefined. -/
def fixCoord (p : Option (List ℚ)) (i : ℕ) : Option ℚ :=
  match jsIndex p i with
  | some c => if c = 0 then none else some (c * 100)
  | none => none

/-- The (fx, fy, fz) triple attached to a node in graphData. -/
def fixedPosition (p : Option (List ℚ)) : Option ℚ × Option ℚ × Option ℚ :=
  (fixCoord p 0, fixCoord p 1, fixCoord p 2)

/-- NeuralGraph3D.tsx lines 84-89: links = edges.map, copying source, target,
weight and coFireCount; no endpoint filtering is performed. -/
def graphDataLinks (edges : List GraphEdge) : List BrainViz.SimLink :=
  edges.map (fun e =>
    { source := e.source, target := e.target, weight := e.weight, coFireCount := e.coFireCount })

/-- NeuralGraph3D.tsx lines 126-132: the alpha channel of getLinkColor,
alpha = 0.3 + weight * 0.7. -/
def getLinkColorAlpha (w : ℚ) : ℚ := 3 / 10 + w * (7 / 10)

/-- NeuralGraph3D.tsx lines 135-139: getLinkWidth =
0.5 + weight * 2 + Math.min(coFireCount, 15) * 0.1. -/
def getLinkWidth (w : ℚ) (coFire : ℕ) : ℚ :=
  1 / 2 + w * 2 + (min coFire 15 : ℕ) * (1 / 10)

/-- NeuralGraph3D.tsx lines 142-145: getLinkParticles =
Math.min(Math.floor(coFireCount / 3) + 1, 5). -/
def getLinkParticles (coFire : ℕ) : ℕ := min (coFire / 3 + 1) 5

/-- NeuralGraph3D.tsx lines 93-115: getNodeColor depends on the selection
flag, the energy and the depth: white when selected, a green band for
depth 0, a blue band for depth 1, a purple band otherwise, with Math.floor
applied to the energy-dependent channel. -/
def getNodeColor (selected : Bool) (e : ℚ) (depth : ℕ) : ℤ × ℤ × ℤ :=
  if selected then (255, 255, 255)
  else if depth = 0 then (⌊50 + (1 - e) * 200⌋, ⌊200 + e * 55⌋, 80)
  else if depth = 1 then (80, 150, ⌊150 + e * 105⌋)
  else (⌊120 + e * 80⌋, 80, 200)

end NeuralGraph3D

namespace NeoGraph

/-- NeoGraph (cytoscape variant) line 24: label =
n.content?.slice(0, 25) + (n.content && n.content.length > 25 ? '...' : ''),
so the ellipsis is appended only when the content exceeds 25 characters. -/
def labelText (content : Option String) : String :=
  jsCoerce (content.map (fun s => s.take 25)) ++
    (match content with
     | some s => if 25 < s.length then "..." else ""
     | none => "")

/-- NeoGraph node background-color style (lines 51-58): a four-band step
function of energy with thresholds 0.8, 0.5 and 0.3, returning #22c55e,
#84cc16, #eab308 or #f97316. -/
def nodeColor (e : ℚ) : Color :=
  if 8 / 10 < e then (34, 197, 94)
  else if 1 / 2 < e then (132, 204, 22)
  else if 3 / 10 < e then (234, 179, 8)
  else (249, 115, 22)

/-- NeoGraph tap handler on nodes (lines 142-149): the tapped node is looked
up in the current nodes prop and, when found, becomes the selection; there is
no toggle, so tapping the already-selected node keeps it selected. -/
def tapNode (nodeIds : List String) (prev : Option String) (tapped : String) : Option String :=
  if nodeIds.contains tapped then some tapped else prev

/-- NeoGraph tap handler on the core (lines 151-155): tapping empty canvas
clears the selection. -/
def tapCanvas (_prev : Option String) : Option String := none

end NeoGraph

/-- Modelled from the spec: the particle count per edge the spec prescribes
for every renderer variant, min(ceil(coFireCount / 2), 5) with the fixed cap
5; stated separately from the per-variant source definitions so the two can
be compared. -/
def specParticleCount (c : ℕ) : ℕ := min ((c + 1) / 2) 5

/-- Modelled from the spec: a color mapping is a two-point linear
interpolation keyed by energy when it coincides with lerpColor between one
low-energy color and one high-energy color, linear in energy. -/
def IsTwoPointLinear (f : ℚ → Color) : Prop :=
  ∃ lo hi : Color, ∀ e : ℚ, f e = lerpColor lo hi e

/-- C1: with node set having only id "a" and the single relation
a → missing, the 2D SVG renderer still creates one rendered edge (simLinks
performs no endpoint filtering, so the rendered edge count is 1 while the
relations with both endpoints present number 0), and the d3 link-force id
resolution fails with "node not found" instead of dropping the relation
silently. -/
theorem C1_dangling_edge_not_filtered :
    BrainViz.renderedEdgeCount [⟨"a", "missing", 1, 1⟩] = 1 ∧
    BrainViz.validEdgeCount ["a"] [⟨"a", "missing", 1, 1⟩] = 0 ∧
    BrainViz.resolveLinks ["a"] (BrainViz.simLinksOf [⟨"a", "missing", 1, 1⟩]) =
      .error "node not found: missing" := by
  refine ⟨rfl, by decide, rfl⟩

/-- C3 counterexample: the claim requires every renderer variant to schedule
min(ceil(coFireCount / 2), 5) particles, 5 for coFireCount = 10, but the 3D
variant schedules min(floor(10 / 3) + 1, 5) = 4. -/
theorem C3_counterexample :
    NeuralGraph3D.getLinkParticles 10 = 4 ∧ specParticleCount 10 = 5 := by decide

/-- C3 (amended): the 2D SVG variant schedules min(ceil(coFireCount / 2), 5)
particles per edge, exactly 5 for coFireCount = 10; the 3D variant instead
schedules min(floor(coFireCount / 3) + 1, 5), which is 4 for coFireCount = 10;
both counts are capped at 5. -/
theorem C3_particle_count_per_variant :
    (∀ c : ℕ, BrainViz.numParticles c = specParticleCount c) ∧
    BrainViz.numParticles 10 = 5 ∧
    NeuralGraph3D.getLinkParticles 10 = 4 ∧
    (∀ c : ℕ, BrainViz.numParticles c ≤ 5 ∧ NeuralGraph3D.getLinkParticles c ≤ 5) :=
  ⟨fun _ => rfl, rfl, rfl, fun _ => ⟨min_le_right _ _, min_le_right _ _⟩⟩

/-- C5 counterexample: in the 3D variant the rendered link width also grows
with coFireCount, so the edge (weight 0, coFireCount 15) renders strictly
wider than the edge (weight 1/2, coFireCount 0) although its weight is
strictly smaller. -/
theorem C5_counterexample :
    (0 : ℚ) < 1 / 2 ∧
    NeuralGraph3D.getLinkWidth (1 / 2) 0 < NeuralGraph3D.getLinkWidth 0 15 := by
  constructor
  · norm_num
  · norm_num [NeuralGraph3D.getLinkWidth]

/-- C5 (amended): stroke width and opacity are monotone in weight in the
2D SVG variant for any two edges, and in the 3D variant the link color alpha
is monotone in weight and the link width is monotone in weight among edges
with equal coFireCount; a 3D edge of lower weight but higher coFireCount can
render wider. -/
theorem C5_weight_monotonicity (w1 w2 : ℚ) (c : ℕ) (h : w1 < w2) :
    BrainViz.strokeWidth w1 ≤ BrainViz.strokeWidth w2 ∧
    BrainViz.strokeOpacity w1 ≤ BrainViz.strokeOpacity w2 ∧
    NeuralGraph3D.getLinkColorAlpha w1 ≤ NeuralGraph3D.getLinkColorAlpha w2 ∧
    NeuralGraph3D.getLinkWidth w1 c ≤ NeuralGraph3D.getLinkWidth w2 c := by
  unfold BrainViz.strokeWidth BrainViz.strokeOpacity
  unfold NeuralGraph3D.getLinkColorAlpha NeuralGraph3D.getLinkWidth
  refine ⟨by linarith, by linarith, by linarith, by linarith⟩

/-- Witness for C5: the monotonicity theorem applied at w1 = 0, w2 = 1,
coFireCount = 3. -/
theorem C5_weight_monotonicity_witness :
    (0 : ℚ) < 1 ∧
    (BrainViz.strokeWidth 0 ≤ BrainViz.strokeWidth 1 ∧
     BrainViz.strokeOpacity 0 ≤ BrainViz.strokeOpacity 1 ∧
     NeuralGraph3D.getLinkColorAlpha 0 ≤ NeuralGraph3D.getLinkColorAlpha 1 ∧
     NeuralGraph3D.getLinkWidth 0 3 ≤ NeuralGraph3D.getLinkWidth 1 3) :=
  ⟨by norm_num, C5_weight_monotonicity 0 1 3 (by norm_num)⟩

/-- C10: in the 3D variant a position coordinate is turned into a fixed
fx/fy/fz value only when it is present and non-zero — a coordinate exactly 0
is falsy and leaves the axis free — and the node with position [0, 1, 2] is
pinned on y (100) and z (200) but not on x. -/
theorem C10_zero_coordinate_left_free :
    (∀ (p : Option (List ℚ)) (i : ℕ),
      NeuralGraph3D.fixCoord p i = none ↔ (jsIndex p i = none ∨ jsIndex p i = some 0)) ∧
    NeuralGraph3D.fixedPosition (some [0, 1, 2]) = (none, some 100, some 200) := by
  constructor
  · intro p i
    cases h : jsIndex p i with
    | none => simp [NeuralGraph3D.fixCoord, h]
    | some c =>
      by_cases hc : c = 0
      · simp [NeuralGraph3D.fixCoord, h, hc]
      · simp [NeuralGraph3D.fixCoord, h, hc]
  · norm_num [NeuralGraph3D.fixedPosition, NeuralGraph3D.fixCoord, jsIndex, List.get?]

/-- C2 counterexample: with the single-node snapshot A (spatial hint [1])
and a previous simulation state in which A has drifted to x = 650,
re-applying the snapshot rebuilds the simulation nodes from the props alone
and puts A back at its initial x = 800 / 2 + 1 * 200 = 600, not 650. -/
theorem C2_counterexample :
    BrainViz.rebuildOnSnapshot [⟨"A", 650, 250⟩] 800 500
        [⟨"A", some "alpha", 1, 0, 0, some [1]⟩] = [⟨"A", 600, 250⟩] ∧
    (600 : ℚ) ≠ 650 := by
  constructor
  · norm_num [BrainViz.rebuildOnSnapshot, BrainViz.simNodesOf, jsIndex, List.get?]
  · norm_num

/-- C2 (amended): applying a new snapshot in the 2D SVG renderer tears the
simulation down and rebuilds it from the snapshot alone: the result is
independent of the previous simulation state, and every entity — whether its
id is retained or brand new — receives the initial position derived from its
spatial hint (width / 2 + hint * 200), discarding any simulated position. -/
theorem C2_snapshot_resets_positions (prev1 prev2 : List BrainViz.SimNode)
    (width height : ℚ) (nodes : List GraphNode) (n : GraphNode) (hn : n ∈ nodes) :
    BrainViz.rebuildOnSnapshot prev1 width height nodes =
      BrainViz.rebuildOnSnapshot prev2 width height nodes ∧
    (⟨n.id, width / 2 + ((jsIndex n.position 0).getD 0) * 200,
        height / 2 + ((jsIndex n.position 1).getD 0) * 200⟩ : BrainViz.SimNode) ∈
      BrainViz.rebuildOnSnapshot prev1 width height nodes := by
  refine ⟨rfl, ?_⟩
  unfold BrainViz.rebuildOnSnapshot BrainViz.simNodesOf
  exact List.mem_map_of_mem _ hn

/-- Witness for C2 (amended): applied to the concrete snapshot of the
counterexample and two distinct previous states. -/
theorem C2_snapshot_resets_positions_witness :
    (⟨"A", some "alpha", 1, 0, 0, some [1]⟩ : GraphNode) ∈
      [(⟨"A", some "alpha", 1, 0, 0, some [1]⟩ : GraphNode)] ∧
    (BrainViz.rebuildOnSnapshot [⟨"A", 650, 250⟩] 800 500
        [⟨"A", some "alpha", 1, 0, 0, some [1]⟩] =
      BrainViz.rebuildOnSnapshot [] 800 500 [⟨"A", some "alpha", 1, 0, 0, some [1]⟩] ∧
    (⟨"A", 800 / 2 + ((jsIndex (some [1]) 0).getD 0) * 200,
        500 / 2 + ((jsIndex (some [1]) 1).getD 0) * 200⟩ : BrainViz.SimNode) ∈
      BrainViz.rebuildOnSnapshot [⟨"A", 650, 250⟩] 800 500
        [⟨"A", some "alpha", 1, 0, 0, some [1]⟩]) :=
  ⟨List.mem_singleton.mpr rfl,
   C2_snapshot_resets_positions [⟨"A", 650, 250⟩] [] 800 500 _ _
     (List.mem_singleton.mpr rfl)⟩

/-- C4 counterexample: after tearing the engine down over the snapshot with
nodes a, b and the single edge a → b with coFireCount 10, the cleanup has
stopped the simulation but the five particle setTimeout timers and the
zoom-to-fit timer are still pending, so their callbacks still fire. -/
theorem C4_counterexample :
    (BrainViz.cleanupEffect (BrainViz.setupEffect
        [⟨"a", none, 1, 0, 0, none⟩, ⟨"b", none, 1, 0, 0, none⟩]
        [⟨"a", "b", 1, 10⟩])).pendingTimers ≠ [] ∧
    (BrainViz.cleanupEffect (BrainViz.setupEffect
        [⟨"a", none, 1, 0, 0, none⟩, ⟨"b", none, 1, 0, 0, none⟩]
        [⟨"a", "b", 1, 10⟩])).zoomTimerPending = true ∧
    (BrainViz.cleanupEffect (BrainViz.setupEffect
        [⟨"a", none, 1, 0, 0, none⟩, ⟨"b", none, 1, 0, 0, none⟩]
        [⟨"a", "b", 1, 10⟩])).pendingTimers.length = 5 := by
  refine ⟨?_, rfl, rfl⟩
  decide

/-- C4 (amended): the effect cleanup stops the force simulation and nothing
else: every particle-animation setTimeout scheduled by the effect and the
zoom-to-fit timer remain pending after teardown and may still fire, their
callbacks reading the edge data they captured; on a snapshot change the old
particles' svg elements are removed, but the pending timers of the replaced
effect are likewise not cancelled. -/
theorem C4_cleanup_stops_simulation_only (nodes : List GraphNode) (edges : List GraphEdge) :
    (BrainViz.cleanupEffect (BrainViz.setupEffect nodes edges)).simulationRunning = false ∧
    (BrainViz.cleanupEffect (BrainViz.setupEffect nodes edges)).pendingTimers =
      (BrainViz.setupEffect nodes edges).pendingTimers ∧
    (BrainViz.cleanupEffect (BrainViz.setupEffect nodes edges)).zoomTimerPending =
      (BrainViz.setupEffect nodes edges).zoomTimerPending :=
  ⟨rfl, rfl, rfl⟩

/-- C6 counterexample: in the cytoscape variant, tapping the node that is
already selected leaves it selected instead of deselecting it, and in the
2D SVG variant a click on empty canvas leaves the selection unchanged
instead of clearing it. -/
theorem C6_counterexample :
    NeoGraph.tapNode ["a"] (some "a") "a" = some "a" ∧
    BrainViz.canvasClick (some "a") = some "a" := by
  refine ⟨?_, rfl⟩
  decide

/-- C6 (amended): the selection state of each variant is a single nullable
id, so at most one entity is selected at any time, and clicking a different
entity replaces the selection with exactly the new entity in both variants.
Click-toggle deselection of the already-selected entity holds only in the
2D SVG variant (the cytoscape variant keeps it selected), and empty-canvas
deselection holds only in the cytoscape variant (the 2D SVG variant leaves
the selection unchanged, clearing it only through the panel button). -/
theorem C6_selection_per_variant (prev : Option String) (a b : String)
    (ids : List String) (hab : a ≠ b) (hb : b ∈ ids) :
    BrainViz.nodeClick (some a) a = none ∧
    BrainViz.nodeClick (some a) b = some b ∧
    BrainViz.nodeClick none a = some a ∧
    BrainViz.canvasClick prev = prev ∧
    NeoGraph.tapNode ids prev b = some b ∧
    NeoGraph.tapNode ids (some a) a = some a ∧
    NeoGraph.tapCanvas prev = none := by
  refine ⟨by simp [BrainViz.nodeClick], by simp [BrainViz.nodeClick, hab], ?_, rfl, ?_, ?_, rfl⟩
  · simp [BrainViz.nodeClick]
  · simp [NeoGraph.tapNode, List.elem_iff, hb]
  · unfold NeoGraph.tapNode
    split <;> rfl

/-- Witness for C6 (amended): applied with a = "a", b = "b", the node id set
["b"] and the previous selection "c". -/
theorem C6_selection_per_variant_witness :
    ("a" ≠ "b" ∧ "b" ∈ ["b"]) ∧
    (BrainViz.nodeClick (some "a") "a" = none ∧
     BrainViz.nodeClick (some "a") "b" = some "b" ∧
     BrainViz.nodeClick none "a" = some "a" ∧
     BrainViz.canvasClick (some "c") = some "c" ∧
     NeoGraph.tapNode ["b"] (some "c") "b" = some "b" ∧
     NeoGraph.tapNode ["b"] (some "a") "a" = some "a" ∧
     NeoGraph.tapCanvas (some "c") = none) :=
  ⟨⟨by decide, by decide⟩,
   C6_selection_per_variant (some "c") "a" "b" ["b"] (by decide) (by decide)⟩

/-- C7 counterexample: the cytoscape variant's node color is a four-band
step function of energy, not a two-point linear interpolation (it is
constant between 0.6 and 0.7 yet differs between 0.2 and 0.9), and the 3D
variant's node color is not a function of energy alone (at energy 1/2 it
differs between depth 0 and depth 1). -/
theorem C7_counterexample :
    ¬ IsTwoPointLinear NeoGraph.nodeColor ∧
    NeuralGraph3D.getNodeColor false (1 / 2) 0 ≠ NeuralGraph3D.getNodeColor false (1 / 2) 1 := by
  constructor
  · rintro ⟨lo, hi, h⟩
    have h6 := congrArg Prod.fst (h (6 / 10))
    have h7 := congrArg Prod.fst (h (7 / 10))
    have h2 := congrArg Prod.fst (h (2 / 10))
    norm_num [NeoGraph.nodeColor, lerpColor] at h6 h7 h2
    linarith
  · norm_num [NeuralGraph3D.getNodeColor]

/-- C7 (amended): in the 2D SVG variant the node fill color is a pure
function of energy alone, the two-point linear interpolation from red
#ef4444 at energy 0 to green #22c55e at energy 1; the cytoscape variant maps
energy through a stepwise four-band function instead, and the 3D variant's
color also depends on depth and the selection flag, not on energy alone. -/
theorem C7_svg_color_two_point_linear :
    IsTwoPointLinear BrainViz.energyColor ∧
    BrainViz.energyColor 0 = (239, 68, 68) ∧
    BrainViz.energyColor 1 = (34, 197, 94) := by
  refine ⟨⟨(239, 68, 68), (34, 197, 94), fun e => ?_⟩, by norm_num [BrainViz.energyColor, lerpColor], by norm_num [BrainViz.energyColor, lerpColor]⟩
  simp only [BrainViz.energyColor, lerpColor, Prod.mk.injEq]
  refine ⟨by ring, by ring, by ring⟩

/-- C8: pinning a node at drag start, ticking the reheated simulation while
it is pinned, then unpinning at drag end leaves the node free (fx = fy =
none) with zero velocity, and a subsequent tick under any non-zero force
gives it a non-zero velocity again: it is not permanently held at zero. -/
theorem C8_pin_unpin_round_trip (d : BrainViz.DragNode) (ax ay bx : ℚ) (hbx : bx ≠ 0) :
    (BrainViz.dragEnd (BrainViz.tick ax ay (BrainViz.dragStart d))).fx = none ∧
    (BrainViz.dragEnd (BrainViz.tick ax ay (BrainViz.dragStart d))).fy = none ∧
    (BrainViz.dragEnd (BrainViz.tick ax ay (BrainViz.dragStart d))).vx = 0 ∧
    (BrainViz.dragEnd (BrainViz.tick ax ay (BrainViz.dragStart d))).vy = 0 ∧
    (BrainViz.tick bx 0 (BrainViz.dragEnd (BrainViz.tick ax ay (BrainViz.dragStart d)))).vx ≠ 0 := by
  refine ⟨rfl, rfl, rfl, rfl, ?_⟩
  simp only [BrainViz.dragStart, BrainViz.dragEnd, BrainViz.tick]
  intro h
  apply hbx
  have : (0 + bx) * (6 / 10 : ℚ) = 0 := h
  nlinarith [this]

/-- Witness for C8: the round trip applied to the node at the origin with
unit forces. -/
theorem C8_pin_unpin_round_trip_witness :
    (1 : ℚ) ≠ 0 ∧
    ((BrainViz.dragEnd (BrainViz.tick 1 1 (BrainViz.dragStart ⟨0, 0, 0, 0, none, none⟩))).fx = none ∧
     (BrainViz.dragEnd (BrainViz.tick 1 1 (BrainViz.dragStart ⟨0, 0, 0, 0, none, none⟩))).fy = none ∧
     (BrainViz.dragEnd (BrainViz.tick 1 1 (BrainViz.dragStart ⟨0, 0, 0, 0, none, none⟩))).vx = 0 ∧
     (BrainViz.dragEnd (BrainViz.tick 1 1 (BrainViz.dragStart ⟨0, 0, 0, 0, none, none⟩))).vy = 0 ∧
     (BrainViz.tick 1 0 (BrainViz.dragEnd (BrainViz.tick 1 1 (BrainViz.dragStart ⟨0, 0, 0, 0, none, none⟩)))).vx ≠ 0) :=
  ⟨by norm_num, C8_pin_unpin_round_trip ⟨0, 0, 0, 0, none, none⟩ 1 1 1 (by norm_num)⟩

/-- C9: the 2D SVG label is always the first 20 characters of the content
followed by "...", even for content of 20 characters or fewer, and an
undefined content is coerced to the label "undefined..."; the cytoscape
variant instead truncates to 25 characters and appends the ellipsis only
when the content is longer than 25 characters. -/
theorem C9_svg_label_unconditional_ellipsis :
    BrainViz.labelText none = "undefined..." ∧
    BrainViz.labelText (some "short") = "short..." ∧
    (∀ s : String, BrainViz.labelText (some s) = s.take 20 ++ "...") ∧
    (∀ s : String, s.length ≤ 25 → NeoGraph.labelText (some s) = s.take 25) ∧
    (∀ s : String, 25 < s.length → NeoGraph.labelText (some s) = s.take 25 ++ "...") := by
  refine ⟨by decide, by decide, fun s => ?_, fun s hs => ?_, fun s hs => ?_⟩
  · simp [BrainViz.labelText, jsCoerce]
  · simp [NeoGraph.labelText, jsCoerce, Nat.not_lt.mpr hs]
  · simp [NeoGraph.labelText, jsCoerce, hs]

/-- Witness for C9: the conditional cytoscape truncation applied to a short
and to a 26-character content. -/
theorem C9_svg_label_unconditional_ellipsis_witness :
    ("ab".length ≤ 25 ∧ NeoGraph.labelText (some "ab") = "ab".take 25) ∧
    (25 < "abcdefghijklmnopqrstuvwxyz".length ∧
     NeoGraph.labelText (some "abcdefghijklmnopqrstuvwxyz") =
       "abcdefghijklmnopqrstuvwxyz".take 25 ++ "...") :=
  ⟨⟨by decide, C9_svg_label_unconditional_ellipsis.2.2.2.1 "ab" (by decide)⟩,
   ⟨by decide, C9_svg_label_unconditional_ellipsis.2.2.2.2 "abcdefghijklmnopqrstuvwxyz" (by decide)⟩⟩
